import Mathlib

/-!
Verification of the Joystick Gremlin profile / custom-module core

Shallow embedding of `gremlin/profile.py` and `gremlin/custom_module.py`
(the profile data model with its XML codec and device reconciliation, and
the custom-module variable system with its registry).

Modelling conventions:
* Python `dict`s are insertion-ordered association lists (`dlookup` /
  `dinsert`); `dinsert` updates an existing key in place and appends a new
  key at the end, exactly as CPython dicts do.
* Python values that may be `None` are `Option`s.
* Fallible Python code (raised exceptions) returns `Except PyErr`.
* `print` output that the spec treats as a recorded warning is returned as
  a `List String` alongside the parse result.
-/

/-- Errors raised by the embedded Python code.  `profileError` carries the
message of a `gremlin.error.ProfileError`; the builtin exception kinds are
represented by their kind alone. -/
inductive PyErr where
  | attributeError
  | typeError
  | valueError
  | profileError (msg : String)
deriving DecidableEq

/-- Lookup in an insertion-ordered association list (Python `d[k]` /
`d.get(k)`): first entry with an equal key. -/
def dlookup [DecidableEq K] : List (K × V) → K → Option V
  | [], _ => none
  | (k, v) :: rest, k' => if k' = k then some v else dlookup rest k'

/-- Python dict assignment `d[k] = v`: replace the value of an existing key
in place, otherwise append the new entry at the end. -/
def dinsert [DecidableEq K] : List (K × V) → K → V → List (K × V)
  | [], k, v => [(k, v)]
  | (k', v') :: rest, k, v =>
      if k = k' then (k, v) :: rest else (k', v') :: dinsert rest k v



/-! ## VariableRegistry (`custom_module.py`, lines 74–96)

The Python registry is a three-level nested dict.  Every call site in the
source keys all three levels with strings (the module identity and instance
name from the `identifier` pair, and the variable label); values are
untyped, so the value type is a parameter. -/

/-- State of a `VariableRegistry`: the `_registry` attribute, a three-level
insertion-ordered dict from module identity to instance name to variable
label to stored value. -/
structure VariableRegistry (V : Type) where
  registry : List (String × List (String × List (String × V)))
deriving DecidableEq

/-- A freshly constructed registry (`__init__`: `self._registry = {}`). -/
def VariableRegistry.empty : VariableRegistry V := ⟨[]⟩

/-- Embeds `VariableRegistry.clear`: `self._registry = {}`. -/
def VariableRegistry.clear (_ : VariableRegistry V) : VariableRegistry V := ⟨[]⟩

/-- Embeds `VariableRegistry._get_instance`: creates the module- and instance-level
dicts when absent and returns the (possibly fresh) instance-level dict.
Since the Python method mutates `self`, the embedding returns the updated
registry alongside the instance dict. -/
def VariableRegistry.getInstance (r : VariableRegistry V) (module name : String) :
    VariableRegistry V × List (String × V) :=
  let reg := r.registry
  let reg := if (dlookup reg module).isNone then dinsert reg module [] else reg
  let inner := (dlookup reg module).getD []
  let inner := if (dlookup inner name).isNone then dinsert inner name [] else inner
  let reg := dinsert reg module inner
  (⟨reg⟩, (dlookup inner name).getD [])

/-- Embeds `VariableRegistry.set`: `self._get_instance(module, name)[key] = value`.
The dict returned by `_get_instance` is the one stored at
`registry[module][name]`, so the item assignment lands there. -/
def VariableRegistry.set (r : VariableRegistry V) (module name key : String)
    (value : V) : VariableRegistry V :=
  let p := r.getInstance module name
  let reg := p.1.registry
  let inner := (dlookup reg module).getD []
  ⟨dinsert reg module (dinsert inner name (dinsert p.2 key value))⟩

/-- Embeds `VariableRegistry.get`:
`return self._get_instance(module, name).get(key, None)`.  Note that the
call to `_get_instance` mutates the registry, hence the returned pair. -/
def VariableRegistry.get (r : VariableRegistry V) (module name key : String) :
    VariableRegistry V × Option V :=
  let p := r.getInstance module name
  (p.1, dlookup p.2 key)

/-- Observation helper for theorem statements: the pure three-level lookup
of a stored value, with no side effect. -/
def VariableRegistry.find3 (r : VariableRegistry V) (module name key : String) :
    Option V :=
  (dlookup r.registry module).bind fun inner =>
    (dlookup inner name).bind fun inst => dlookup inst key



/-! ## Numeric helpers and Python casts (`custom_module.py`) -/

/-- Embeds `clamp_value` (custom_module.py lines 61–71): clamp to the range
`[min_val, max_val]`, swapping the two bounds first when `min_val > max_val`. -/
def clamp_value [LinearOrder A] (value min_val max_val : A) : A :=
  let p := if min_val > max_val then (max_val, min_val) else (min_val, max_val)
  min p.2 (max p.1 value)

/-- ASCII whitespace as stripped by Python around numeric literals.
(Python strips all Unicode whitespace; the ASCII subset suffices for every
input in this development.) -/
def pyIsSpace (c : Char) : Bool :=
  c = ' ' ∨ c = '\t' ∨ c = '\n' ∨ c = '\r' ∨ c = '\x0b' ∨ c = '\x0c'

/-- Strip leading and trailing whitespace from a character list. -/
def pyStrip (cs : List Char) : List Char :=
  ((cs.dropWhile pyIsSpace).reverse.dropWhile pyIsSpace).reverse

/-- Numeric value of a list of decimal digit characters. -/
def digitsVal (cs : List Char) : Nat :=
  cs.foldl (fun a c => a * 10 + (c.toNat - 48)) 0

/-- Python `int` applied to a string: optional surrounding whitespace, an
optional sign, then decimal digits.  (Underscore digit grouping accepted by
Python is not modelled; no input in this development uses it.)  `none`
models the `ValueError` raised for an unparsable string. -/
def pyStrToInt (s : String) : Option Int :=
  let t := pyStrip s.toList
  let sign : Int := if t.head? = some '-' then -1 else 1
  let digits := if t.head? = some '-' ∨ t.head? = some '+' then t.drop 1 else t
  if digits.length > 0 ∧ digits.all Char.isDigit then
    some (sign * (digitsVal digits : Nat))
  else none

/-- Python `float` applied to a string: optional surrounding whitespace and
sign, a mantissa `digits[.digits]` or `.digits`, and an optional decimal
exponent.  Underscore grouping and the non-finite literals
`inf`/`infinity`/`nan`, which have no counterpart in `ℚ`, are not modelled;
no claim exercises them.  `none` models the `ValueError` raised for an
unparsable string. -/
def pyStrToFloat (s : String) : Option Rat :=
  let t := pyStrip s.toList
  let sign : Rat := if t.head? = some '-' then -1 else 1
  let cs := if t.head? = some '-' ∨ t.head? = some '+' then t.drop 1 else t
  let mant := match cs.findIdx? (fun c => c == 'e' || c == 'E') with
    | none => cs
    | some j => cs.take j
  let expPart := match cs.findIdx? (fun c => c == 'e' || c == 'E') with
    | none => none
    | some j => some (cs.drop (j + 1))
  let ip := match mant.findIdx? (fun c => c == '.') with
    | none => mant
    | some j => mant.take j
  let fp := match mant.findIdx? (fun c => c == '.') with
    | none => []
    | some j => mant.drop (j + 1)
  if ip.all Char.isDigit ∧ fp.all Char.isDigit ∧ ip.length + fp.length > 0 then
    let mval : Rat := (digitsVal ip : Rat) + (digitsVal fp : Rat) / ((10 : Rat) ^ fp.length)
    match expPart with
    | none => some (sign * mval)
    | some ecs =>
        let esign : Bool := match ecs with
          | '-' :: _ => false
          | _ => true
        let emag := match ecs with
          | '-' :: rest => rest
          | '+' :: rest => rest
          | _ => ecs
        if emag.length > 0 ∧ emag.all Char.isDigit then
          some (sign * mval *
            (if esign then ((10 : Rat) ^ digitsVal emag)
             else 1 / ((10 : Rat) ^ digitsVal emag)))
        else none
  else none

/-- A value stored in the (untyped) variable registry.  The verification
needs the integer and string cases, which are the ones the variable-loading
code paths under scrutiny exercise. -/
inductive PyVal where
  | int (n : Int)
  | str (s : String)
deriving DecidableEq

/-- Embeds `_cast_variable[VariableType.Int]`, i.e. Python `int`, on a
stored value: identity on integers, integer parse on strings. -/
def castInt : PyVal → Option Int
  | .int n => some n
  | .str s => pyStrToInt s

/-- Embeds `_cast_variable[VariableType.Float]`, i.e. Python `float`, on a
stored value: exact inclusion on integers, float parse on strings. -/
def castFloat : PyVal → Option Rat
  | .int n => some (n : Rat)
  | .str s => pyStrToFloat s

/-! ## Numerical and string variables (`custom_module.py`, lines 112–338) -/

/-- A numerical custom-module variable after `_initialize_variable` has
run: `default_value`, `min_value` and `max_value` hold the declared values
with unset ones already replaced by the per-subtype defaults (see
`_init_numerical`).  The Qt plumbing and the mutable `value` attribute are
not part of the state; `load_from_registry` returns the loaded value. -/
structure NumericalVariable (A : Type) where
  label : String
  default_value : A
  min_value : A
  max_value : A
deriving DecidableEq

/-- Embeds `_init_numerical` (custom_module.py lines 112–115) applied to a
freshly declared variable: each field left `None` by the declaration falls
back to the per-subtype default `d`/`m`/`x`. -/
def init_numerical (label : String) (default_value min_value max_value : Option A)
    (d m x : A) : NumericalVariable A :=
  { label := label
    default_value := default_value.getD d
    min_value := min_value.getD m
    max_value := max_value.getD x }

/-- Embeds `IntegerVariable._initialize_variable`:
`_init_numerical(self, 0, 0, 10)`. -/
def IntegerVariable.init (label : String)
    (default_value min_value max_value : Option Int) : NumericalVariable Int :=
  init_numerical label default_value min_value max_value 0 0 10

/-- Embeds `FloatVariable._initialize_variable`:
`_init_numerical(self, 0, -1.0, 1.0)`. -/
def FloatVariable.init (label : String)
    (default_value min_value max_value : Option Rat) : NumericalVariable Rat :=
  init_numerical label default_value min_value max_value 0 (-1) 1

/-- Embeds `NumericalVariable._load_from_registry` (custom_module.py lines
218–236).  `cast` is the `_cast_variable` entry selected by the variable's
type (`castInt` for Int, `castFloat` for Float).  The Python code applies
the cast with no exception handler, so an unparsable stored value
propagates the cast's `ValueError`; otherwise the loaded (or default)
value is clamped.  Returns the registry as mutated by `get`. -/
def NumericalVariable.load_from_registry [LinearOrder A] (v : NumericalVariable A)
    (cast : PyVal → Option A) (reg : VariableRegistry PyVal)
    (identifier : Option (String × String)) :
    Except PyErr (VariableRegistry PyVal × A) :=
  match identifier with
  | some mi =>
      let p := reg.get mi.1 mi.2 v.label
      match p.2 with
      | none => .ok (p.1, clamp_value v.default_value v.min_value v.max_value)
      | some stored =>
          match cast stored with
          | none => .error .valueError
          | some x => .ok (p.1, clamp_value x v.min_value v.max_value)
  | none => .ok (reg, clamp_value v.default_value v.min_value v.max_value)

/-- Python `str` applied to a stored registry value. -/
def pyStrOfVal : PyVal → String
  | .int n => toString n
  | .str s => s

/-- Embeds `_cast_variable[VariableType.String]`, i.e. Python `str`,
applied to the raw result of `VariableRegistry.get` — which is `None` when
no value is stored, and `str(None)` is the literal string `"None"`. -/
def strCastOfGet : Option PyVal → String
  | none => "None"
  | some v => pyStrOfVal v

/-- A `StringVariable`: its label and (possibly `None`) declared default. -/
structure StringVariable where
  label : String
  default_value : Option String
deriving DecidableEq

/-- Embeds `StringVariable._load_from_registry` (custom_module.py lines
329–338): with an identifier present the value is `str()` of whatever
`get` returns (even when nothing is stored); only with no identifier does
it fall back to the declared default.  Returns the registry as mutated by
`get` and the new value (`none` models Python `None`). -/
def StringVariable.load_from_registry (v : StringVariable)
    (reg : VariableRegistry PyVal) (identifier : Option (String × String)) :
    VariableRegistry PyVal × Option String :=
  match identifier with
  | some mi =>
      let p := reg.get mi.1 mi.2 v.label
      (p.1, some (strCastOfGet p.2))
  | none => (reg, v.default_value)



/-- Concrete integer variable for the C4 counterexample: label "x", all
bounds left to the subtype defaults. -/
def exIntVar : NumericalVariable Int := IntegerVariable.init "x" none none none

/-- Concrete float variable with label "x" used in the C4 witness. -/
def exFloatVar : NumericalVariable Rat := FloatVariable.init "x" none none none

/-- Concrete registry for the C4 counterexample: module "m", instance "i"
stores the unparsable string "abc" under label "x". -/
def exRegC4 : VariableRegistry PyVal :=
  VariableRegistry.empty.set "m" "i" "x" (PyVal.str "abc")


/-! ## Profile data model (`profile.py`)

The XML text layer is modelled as the identity on the element tree:
`ElementTree.tostring` / `minidom.parseString` / `toprettyxml` preserve
every tag, attribute and child element, and the pretty-printer's inserted
whitespace becomes text content which none of the parsing code reads.
Saving then loading therefore composes `to_xml` directly with `from_xml`. -/

/-- An XML element: tag, attributes in document order, child elements in
document order. -/
inductive XmlElem where
  | mk (tag : String) (attrs : List (String × String)) (children : List XmlElem)

/-- Tag of an element. -/
def XmlElem.tag : XmlElem → String
  | .mk t _ _ => t

/-- Attribute list of an element (`node.get(k)` is `dlookup (attrs e) k`). -/
def XmlElem.attrs : XmlElem → List (String × String)
  | .mk _ a _ => a

/-- Child elements of an element (`for child in node`). -/
def XmlElem.children : XmlElem → List XmlElem
  | .mk _ _ c => c

mutual

/-- Embeds `node.iter(tag)`: all descendants-or-self with the given tag,
in document (preorder) order. -/
def XmlElem.iterTag : XmlElem → String → List XmlElem
  | .mk t a c, tag =>
      (if t = tag then [XmlElem.mk t a c] else []) ++ XmlElem.iterTagList c tag

/-- Embeds `iter` over a list of sibling elements. -/
def XmlElem.iterTagList : List XmlElem → String → List XmlElem
  | [], _ => []
  | e :: es, tag => XmlElem.iterTag e tag ++ XmlElem.iterTagList es tag

end

/-- Modelled from the spec: the input-type enumeration
(`gremlin.event_handler.InputType`, not under src/), with exactly the four
variants the spec's data model lists. -/
inductive InputType where
  | JoystickAxis
  | JoystickButton
  | JoystickHat
  | Keyboard
deriving DecidableEq

/-- Embeds `DeviceType` (profile.py lines 88–94). -/
inductive DeviceType where
  | Keyboard
  | Joystick
deriving DecidableEq

/-- Python `str.lower()` (ASCII; every tag and boolean literal in this
development is ASCII). -/
def pyLower (s : String) : String := (s.toList.map Char.toLower).asString

/-- The text `format(type(None))` produces, `<class ` + `NoneType` in
quotes + `>`, assembled from character codes (39 is the quote). -/
def pyNoneTypeRepr : String :=
  "<class " ++ String.mk [Char.ofNat 39] ++ "NoneType" ++ String.mk [Char.ofNat 39] ++ ">"

/-- Embeds `tag_to_input_type` (profile.py lines 27–44): case-insensitive
tag lookup, raising a `ProfileError` for an unknown tag. -/
def tag_to_input_type (tag : String) : Except PyErr InputType :=
  let t := pyLower tag
  if t = "axis" then .ok .JoystickAxis
  else if t = "button" then .ok .JoystickButton
  else if t = "hat" then .ok .JoystickHat
  else if t = "key" then .ok .Keyboard
  else .error (.profileError ("Invalid input type specified " ++ tag))

/-- Embeds `_parse_bool` (profile.py lines 47–71), applied to the result of
`node.get(...)`, which may be `None`: `int(None)` raises `TypeError`, which
the function converts to a `ProfileError`; `int` of an unparsable string
raises `ValueError`, falling through to the case-insensitive
`"true"`/`"false"` comparison.  The `ProfileError` raised for an integer
outside {0, 1} propagates (it is not a `ValueError`). -/
def parse_bool (value : Option String) : Except PyErr Bool :=
  match value with
  | none => .error (.profileError ("Invalid type provided: " ++ pyNoneTypeRepr))
  | some s =>
      match pyStrToInt s with
      | some n =>
          if n = 0 then .ok false
          else if n = 1 then .ok true
          else .error (.profileError ("Invalid bool value used: " ++ s))
      | none =>
          if pyLower s = "true" then .ok true
          else if pyLower s = "false" then .ok false
          else .error (.profileError ("Invalid bool value used: " ++ s))

/-- Embeds the keys of `action_lookup` (profile.py lines 74–85), the
action-binding registry consulted for each child tag. -/
def action_tags : List String :=
  ["macro", "remap", "response-curve", "cycle-modes", "pause-action",
   "resume-action", "switch-mode", "switch-to-previous-mode"]

/-- Modelled from the spec: an action binding.  The action classes live in
the external `action` package (not under src/); per the spec the payload is
opaque to the core and "round-trips through `from_xml`/`to_xml`-equivalent
hooks supplied by the action-type implementation", modelled here as
capturing and later reproducing the action's XML element. -/
structure ActionEntry where
  tag : String
  payload : XmlElem

/-- Constructing `action_lookup[child.tag](self)` followed by
`entry.from_xml(child)`: the entry remembers its tag and payload element. -/
def ActionEntry.capture (c : XmlElem) : ActionEntry := ⟨c.tag, c⟩

/-- The element `entry.to_xml()` reproduces (see `ActionEntry`). -/
def ActionEntry.toElem (a : ActionEntry) : XmlElem := a.payload

/-- An input identifier as stored in `InputItem.input_id`: an integer for
axis/button/hat inputs, a (keycode, extended) pair for keyboard inputs. -/
inductive InputId where
  | joy (n : Int)
  | kbd (code : Int) (extended : Bool)
deriving DecidableEq

/-- Python `str` of a bool: `"True"` or `"False"`. -/
def pyBoolStr (b : Bool) : String := if b then "True" else "False"

/-- Python `str` of an `input_id` value as used by `InputItem.to_xml` for
non-keyboard inputs: `str` of an int, or of a (keycode, bool) tuple. -/
def pyStrOfInputId : InputId → String
  | .joy n => toString n
  | .kbd code ext => "(" ++ toString code ++ ", " ++ pyBoolStr ext ++ ")"

/-- Python `int` applied to the result of `node.get(...)`: `int(None)`
raises `TypeError`; an unparsable string raises `ValueError`. -/
def pyIntOfAttr : Option String → Except PyErr Int
  | none => .error .typeError
  | some s =>
      match pyStrToInt s with
      | some n => .ok n
      | none => .error .valueError

/-- The warning printed for a child element whose tag is not in
`action_lookup`: `print("Unknown node: ", child.tag)` (the second space is
the print separator). -/
def unknown_node_msg (tag : String) : String := "Unknown node:  " ++ tag

/-- Embeds `InputItem` (profile.py lines 325–338): one physical input's
bound actions and flags.  The `parent` back-reference is omitted, and the
transient `None` state of `input_type`/`input_id` before `from_xml` or
`Mode.get_data` populates them is not represented — every code path that
creates an item assigns them. -/
structure InputItem where
  input_type : InputType
  input_id : InputId
  always_execute : Bool
  actions : List ActionEntry

/-- One step of the `for child in node` loop of `InputItem.from_xml`: a
child whose tag is a key of `action_lookup` appends a captured entry,
any other child appends only the printed warning. -/
def actionChildStep (acc : List ActionEntry × List String) (c : XmlElem) :
    List ActionEntry × List String :=
  if action_tags.contains c.tag then (acc.1 ++ [ActionEntry.capture c], acc.2)
  else (acc.1, acc.2 ++ [unknown_node_msg c.tag])

/-- Embeds `InputItem.from_xml` (profile.py lines 340–356), in source
order: input type from the tag, `int` of the `id` attribute,
`_parse_bool` of the `always-execute` attribute (default `"False"`), the
keyboard (keycode, extended) pair, then the child loop, which skips
unknown action tags with a printed warning (returned as the second
component) and appends a captured entry for each known tag. -/
def InputItem.from_xml (node : XmlElem) : Except PyErr (InputItem × List String) :=
  match tag_to_input_type node.tag with
  | .error e => .error e
  | .ok t =>
      match pyIntOfAttr (dlookup node.attrs "id") with
      | .error e => .error e
      | .ok rawId =>
          match parse_bool (some ((dlookup node.attrs "always-execute").getD "False")) with
          | .error e => .error e
          | .ok ae =>
              match (if t = InputType.Keyboard then
                       (parse_bool (dlookup node.attrs "extended")).map
                         (fun ext => InputId.kbd rawId ext)
                     else .ok (InputId.joy rawId)) with
              | .error e => .error e
              | .ok i =>
                  .ok ({ input_type := t, input_id := i, always_execute := ae,
                         actions := (node.children.foldl actionChildStep ([], [])).1 },
                       (node.children.foldl actionChildStep ([], [])).2)

/-- Modelled from the spec: `action.common.input_type_to_tag`, from the
external `action` package (not under src/).  The spec fixes the mapping
axis/button/hat/key; it is the inverse of `tag_to_input_type`. -/
def input_type_to_tag : InputType → String
  | .JoystickAxis => "axis"
  | .JoystickButton => "button"
  | .JoystickHat => "hat"
  | .Keyboard => "key"

/-- Embeds `InputItem.to_xml` (profile.py lines 358–375): the tag from the
input type; for keyboard items the `id`/`extended` attributes from the
(keycode, extended) pair (subscripting a non-tuple `input_id` raises
`TypeError`), otherwise a single `id` attribute; the `always-execute`
attribute set to `"True"` only when the flag is set; one child per action
in order. -/
def InputItem.to_xml (it : InputItem) : Except PyErr XmlElem :=
  match (if it.input_type = InputType.Keyboard then
           match it.input_id with
           | .kbd code ext => .ok [("id", toString code), ("extended", pyBoolStr ext)]
           | .joy _ => .error PyErr.typeError
         else .ok [("id", pyStrOfInputId it.input_id)] :
         Except PyErr (List (String × String))) with
  | .error e => .error e
  | .ok baseAttrs =>
      .ok (XmlElem.mk (input_type_to_tag it.input_type)
        (baseAttrs ++ if it.always_execute then [("always-execute", "True")] else [])
        (it.actions.map ActionEntry.toElem))

/-- Embeds the `_config` attribute of `Mode` (profile.py lines 257–262):
one insertion-ordered dict per input type, in the literal's key order
(axis, button, hat, keyboard). -/
structure ModeConfig where
  axis : List (InputId × InputItem)
  button : List (InputId × InputItem)
  hat : List (InputId × InputItem)
  keyboard : List (InputId × InputItem)

/-- The `_config` dict of a freshly constructed `Mode`: all four input
types present, each mapping to an empty dict. -/
def ModeConfig.empty : ModeConfig := ⟨[], [], [], []⟩

/-- Reading `self._config[input_type]`.  Because the embedding carries one
field per input type, the `assert(input_type in self._config)` guarding
every accessor holds by construction. -/
def ModeConfig.getDict (cfg : ModeConfig) : InputType → List (InputId × InputItem)
  | .JoystickAxis => cfg.axis
  | .JoystickButton => cfg.button
  | .JoystickHat => cfg.hat
  | .Keyboard => cfg.keyboard

/-- Writing `self._config[input_type]`. -/
def ModeConfig.setDict (cfg : ModeConfig) : InputType → List (InputId × InputItem) → ModeConfig
  | .JoystickAxis, d => { cfg with axis := d }
  | .JoystickButton, d => { cfg with button := d }
  | .JoystickHat, d => { cfg with hat := d }
  | .Keyboard, d => { cfg with keyboard := d }

/-- Embeds `Mode` (profile.py lines 245–262): name and per-input-type item
dicts.  The `parent` back-reference is omitted. -/
structure Mode where
  name : Option String
  config : ModeConfig

/-- The `for child in node` loop of `Mode.from_xml`: each child is parsed
as an `InputItem` and stored at `_config[item.input_type][item.input_id]`;
warnings from the item parses accumulate in order. -/
def modeItemsLoop : List XmlElem → ModeConfig → List String →
    Except PyErr (ModeConfig × List String)
  | [], cfg, ws => .ok (cfg, ws)
  | c :: cs, cfg, ws =>
      match InputItem.from_xml c with
      | .error e => .error e
      | .ok r =>
          modeItemsLoop cs
            (cfg.setDict r.1.input_type
              (dinsert (cfg.getDict r.1.input_type) r.1.input_id r.1))
            (ws ++ r.2)

/-- Embeds `Mode.from_xml` (profile.py lines 264–273): the mode name from
the `name` attribute and the item loop over the children. -/
def Mode.from_xml (node : XmlElem) : Except PyErr (Mode × List String) :=
  match modeItemsLoop node.children ModeConfig.empty [] with
  | .error e => .error e
  | .ok r => .ok ({ name := dlookup node.attrs "name", config := r.1 }, r.2)

/-- Setting an XML attribute from a Python value that must be a string:
`ElementTree.Element.set` accepts a `None` value but serializing the
document then raises `TypeError`; the embedding surfaces the error at the
point of setting. -/
def attrOfStr : Option String → Except PyErr String
  | none => .error .typeError
  | some s => .ok s

/-- Embeds `Mode.to_xml` (profile.py lines 275–285): the `name` attribute
and one child per item, iterating `_config.values()` in the fixed key
order (axis, button, hat, keyboard) and each inner dict in insertion
order. -/
def Mode.to_xml (m : Mode) : Except PyErr XmlElem :=
  match attrOfStr m.name with
  | .error e => .error e
  | .ok nm =>
      match ((m.config.axis ++ m.config.button ++ m.config.hat ++ m.config.keyboard).map
          Prod.snd).mapM InputItem.to_xml with
      | .error e => .error e
      | .ok ch => .ok (XmlElem.mk "mode" [("name", nm)] ch)

/-- Embeds `Mode.get_data` (profile.py lines 297–312): return the item
stored for `(input_type, input_id)`, creating an empty one (with that type
and id) on first access.  The Python method mutates the mode, so the
embedding returns the updated mode alongside the item. -/
def Mode.get_data (m : Mode) (input_type : InputType) (input_id : InputId) :
    Mode × InputItem :=
  match dlookup (m.config.getDict input_type) input_id with
  | some item => (m, item)
  | none =>
      let entry : InputItem :=
        { input_type := input_type, input_id := input_id,
          always_execute := false, actions := [] }
      let cfg := m.config.setDict input_type
        (dinsert (m.config.getDict input_type) input_id entry)
      ({ m with config := cfg }, entry)

/-- Embeds `Device` (profile.py lines 193–211): identity, type, and the
mode dict.  The `parent` back-reference is omitted; fields that
`__init__` sets to `None` are `Option`s. -/
structure Device where
  name : Option String
  hardware_id : Option Int
  windows_id : Option Int
  modes : List (Option String × Mode)
  type : Option DeviceType

/-- Embeds `Device.__init__`: all fields `None` except the guaranteed
empty `"global"` mode. -/
def Device.new : Device :=
  { name := none, hardware_id := none, windows_id := none,
    modes := [(some "global", { name := some "global", config := ModeConfig.empty })],
    type := none }

/-- The `Device` class defines no attribute `index`, so every access
raises `AttributeError`.  `Profile.from_xml` keys each parsed device at
`device.index` (line 121), and `Device.from_xml` reads `self.index` when
the device name is `"keyboard"` (line 221). -/
def Device.index (_ : Device) : Except PyErr Int := .error .attributeError

/-- The `for child in node` loop of `Device.from_xml`: each child parsed
as a `Mode` and stored at `modes[mode.name]` (warnings from the nested
item parses are printed and not otherwise used at this level). -/
def deviceModesLoop : List XmlElem → List (Option String × Mode) →
    Except PyErr (List (Option String × Mode))
  | [], ms => .ok ms
  | c :: cs, ms =>
      match Mode.from_xml c with
      | .error e => .error e
      | .ok r => deviceModesLoop cs (dinsert ms r.1.name r.1)

/-- Embeds `Device.from_xml` (profile.py lines 213–229): name and integer
ids from the attributes; the type is `Keyboard` iff the name is
`"keyboard"` and `self.index == 0` — but since `index` does not exist,
that very check raises `AttributeError` for a device named `"keyboard"`
(for any other name, `and` short-circuits and `index` is never touched);
then the mode loop. -/
def Device.from_xml (node : XmlElem) : Except PyErr Device :=
  let name := dlookup node.attrs "name"
  match pyIntOfAttr (dlookup node.attrs "id") with
  | .error e => .error e
  | .ok hid =>
      match pyIntOfAttr (dlookup node.attrs "windows_id") with
      | .error e => .error e
      | .ok wid =>
          let d0 := { Device.new with
            name := name, hardware_id := some hid, windows_id := some wid }
          match (if name = some "keyboard" then
                   (d0.index).map (fun i => decide (i = 0))
                 else .ok false) with
          | .error e => .error e
          | .ok isKbd =>
              let d1 := { d0 with
                type := some (if isKbd then DeviceType.Keyboard else DeviceType.Joystick) }
              match deviceModesLoop node.children d1.modes with
              | .error e => .error e
              | .ok ms => .ok { d1 with modes := ms }

/-- Python `str` of an int-or-None attribute value (`str(None)` is the
literal `"None"`). -/
def pyStrOfOptInt : Option Int → String
  | none => "None"
  | some n => toString n

/-- Embeds `Device.to_xml` (profile.py lines 231–242): `name`, `id` and
`windows_id` attributes (ids through `str(...)`), one child per mode in
dict order. -/
def Device.to_xml (d : Device) : Except PyErr XmlElem :=
  match attrOfStr d.name with
  | .error e => .error e
  | .ok nm =>
      match (d.modes.map Prod.snd).mapM Mode.to_xml with
      | .error e => .error e
      | .ok ch =>
          .ok (XmlElem.mk "device"
            [("name", nm), ("id", pyStrOfOptInt d.hardware_id),
             ("windows_id", pyStrOfOptInt d.windows_id)] ch)

/-- Modelled from the spec: descriptor of a live device as supplied by the
external enumeration collaborator (`gremlin.util.joystick_devices`, not
under src/): `{hardware_id, windows_id, name, is_virtual}` per the spec's
interface list, plus the `device_id` the reconciliation code keys devices
by. -/
structure DeviceDescriptor where
  name : String
  device_id : Int
  hardware_id : Int
  windows_id : Int
  is_virtual : Bool
deriving DecidableEq

/-- The `Device` entry the reconciliation pass creates for a live device
absent from the profile (profile.py lines 129–141): a fresh `Device`
carrying the descriptor's identity and type `Joystick`, then one empty
`Mode` per name of the supplied mode-name list not already present (the
constructor's `"global"` mode always is, if `"global"` occurs in the
list).  `addReconModes` is the `for mode in mode_list` loop. -/
def addReconModes : List String → Device → Device
  | [], d => d
  | m :: rest, d =>
      addReconModes rest
        (if (dlookup d.modes (some m)).isNone then
           { d with modes :=
               dinsert d.modes (some m) { name := some m, config := ModeConfig.empty } }
         else d)

/-- The identity fields the reconciliation pass assigns to a freshly
created device before adding its modes. -/
def reconBaseDevice (dev : DeviceDescriptor) : Device :=
  { Device.new with
    name := some dev.name, hardware_id := some dev.hardware_id,
    windows_id := some dev.windows_id, type := some DeviceType.Joystick }

def freshReconDevice (dev : DeviceDescriptor) (mode_list : List String) : Device :=
  addReconModes mode_list (reconBaseDevice dev)

/-- Embeds the reconciliation pass run inside `Profile.from_xml`
(profile.py lines 123–141): for every live device that is not virtual and
whose `device_id` is not yet a key of `devices`, insert the freshly
created entry.  The live device list and the mode-name list are the
outputs of the external collaborators `gremlin.util.joystick_devices` and
`gremlin.util.mode_list` (not under src/), passed as parameters. -/
def Profile.reconcile (devices : List (Int × Device)) (live : List DeviceDescriptor)
    (mode_list : List String) : List (Int × Device) :=
  match live with
  | [] => devices
  | dev :: rest =>
      Profile.reconcile
        (if !dev.is_virtual && (dlookup devices dev.device_id).isNone then
           dinsert devices dev.device_id (freshReconDevice dev mode_list)
         else devices) rest mode_list

/-- Embeds `Profile` (profile.py lines 96–107): the device dict keyed by
device id and the import list (entries are `entry.get("name")`, hence
possibly `None`). -/
structure Profile where
  devices : List (Int × Device)
  imports : List (Option String)

/-- Embeds `Profile.__init__`: empty devices and imports. -/
def Profile.new : Profile := ⟨[], []⟩

/-- The `root.iter("device")` loop of `Profile.from_xml`: parse each
device element and store it at `self.devices[device.index]` — an access
that raises `AttributeError` (see `Device.index`). -/
def profileDevicesLoop : List XmlElem → List (Int × Device) →
    Except PyErr (List (Int × Device))
  | [], devs => .ok devs
  | c :: cs, devs =>
      match Device.from_xml c with
      | .error e => .error e
      | .ok device =>
          match device.index with
          | .error e => .error e
          | .ok idx => profileDevicesLoop cs (dinsert devs idx device)

/-- Embeds `Profile.from_xml` (profile.py lines 109–146) on the parsed
element tree: the device loop, the reconciliation pass against the live
device list, then the import loop collecting `entry.get("name")` of every
child of every `import` element. -/
def Profile.from_xml (p : Profile) (root : XmlElem) (live : List DeviceDescriptor)
    (mode_list : List String) : Except PyErr Profile :=
  match profileDevicesLoop (XmlElem.iterTag root "device") p.devices with
  | .error e => .error e
  | .ok devs =>
      let devs := Profile.reconcile devs live mode_list
      let imps := p.imports ++ (XmlElem.iterTag root "import").flatMap
          (fun child => child.children.map (fun e => dlookup e.attrs "name"))
      .ok { devices := devs, imports := imps }

/-- Embeds `Profile.to_xml` (profile.py lines 148–169) up to the element
tree it serializes: the `devices` root with `version="1"`, one child per
device in dict order, and a final `import` element with one `module` child
per import entry. -/
def Profile.to_xml (p : Profile) : Except PyErr XmlElem :=
  match (p.devices.map Prod.snd).mapM Device.to_xml with
  | .error e => .error e
  | .ok devNodes =>
      match p.imports.mapM (fun entry =>
          match attrOfStr entry with
          | .error e => (.error e : Except PyErr XmlElem)
          | .ok s => .ok (XmlElem.mk "module" [("name", s)] [])) with
      | .error e => .error e
      | .ok impChildren =>
          .ok (XmlElem.mk "devices" [("version", "1")]
            (devNodes ++ [XmlElem.mk "import" [] impChildren]))



/-- Helper used in proofs and statements: the warnings contributed by one
child of a mode element (empty when the child fails to parse). -/
def childWarns (b : XmlElem) : List String :=
  match InputItem.from_xml b with
  | .ok r => r.2
  | .error _ => []

/-! ### Concrete inputs used by counterexamples and witnesses -/

/-- Concrete device for the C1 failing input: a joystick with its empty
"global" mode. -/
def exDeviceC1 : Device :=
  { name := some "Example Stick", hardware_id := some 1, windows_id := some 2,
    modes := [(some "global", { name := some "global", config := ModeConfig.empty })],
    type := some DeviceType.Joystick }

/-- Concrete profile for the C1 failing input: one device, no imports. -/
def exProfileC1 : Profile := { devices := [(1, exDeviceC1)], imports := [] }

/-- A child element whose tag is not in the action-binding registry. -/
def exUnknownElem : XmlElem := XmlElem.mk "bogus-action" [] []

/-- A child element with a known action tag. -/
def exMacroElem : XmlElem := XmlElem.mk "macro" [("key", "a")] []

/-- A button element holding one unknown and one known action child. -/
def exButtonElem : XmlElem := XmlElem.mk "button" [("id", "1")] [exUnknownElem, exMacroElem]

/-- A mode element around `exButtonElem`, for the C5 witness. -/
def exModeElem : XmlElem := XmlElem.mk "mode" [("name", "Default")] [exButtonElem]

/-- Concrete empty mode for the C7 witness. -/
def exModeC7 : Mode := { name := some "Default", config := ModeConfig.empty }

/-- Concrete axis item with the always-execute flag unset, for the C9
witness. -/
def exItemC9 : InputItem :=
  { input_type := InputType.JoystickAxis, input_id := InputId.joy 3,
    always_execute := false, actions := [] }

/-- The element `exItemC9.to_xml` produces. -/
def exXmlC9 : XmlElem := XmlElem.mk "axis" [("id", "3")] []

/-- A button element without an always-execute attribute, for the C9
witness. -/
def exNodeC9 : XmlElem := XmlElem.mk "button" [("id", "2")] []

/-- The item `InputItem.from_xml exNodeC9` produces. -/
def exParsedC9 : InputItem :=
  { input_type := InputType.JoystickButton, input_id := InputId.joy 2,
    always_execute := false, actions := [] }

/-- Concrete device already in the profile before reconciliation (with an
extra manually added mode), for the C2 witness. -/
def exDeviceC2 : Device :=
  { name := some "Old Device", hardware_id := some 5, windows_id := some 0,
    modes := [(some "global", { name := some "global", config := ModeConfig.empty }),
              (some "extra", { name := some "extra", config := ModeConfig.empty })],
    type := some DeviceType.Joystick }

/-- Concrete device dict before reconciliation, for the C2 witness. -/
def exDevicesC2 : List (Int × Device) := [(5, exDeviceC2)]

/-- Concrete live non-virtual device absent from the profile, for the C2
witness. -/
def exDescrC2 : DeviceDescriptor :=
  { name := "New Stick", device_id := 7, hardware_id := 7, windows_id := 1,
    is_virtual := false }

/-- Concrete live device list for the C2 witness. -/
def exLiveC2 : List DeviceDescriptor := [exDescrC2]

/-- Concrete mode-name list for the C2 witness. -/
def exModeListC2 : List String := ["global", "Alt"]


/-! ## Theorems -/

theorem dlookup_dinsert [DecidableEq K] (l : List (K × V)) (k k' : K) (v : V) :
    dlookup (dinsert l k v) k' = if k' = k then some v else dlookup l k' := by
  induction l with
  | nil => simp [dinsert, dlookup]
  | cons hd tl ih =>
      obtain ⟨k0, v0⟩ := hd
      by_cases h1 : k = k0
      · subst h1
        by_cases h2 : k' = k <;> simp [dinsert, dlookup, h2]
      · by_cases h2 : k' = k0
        · subst h2
          simp [dinsert, dlookup, h1, Ne.symm h1]
        · simp [dinsert, dlookup, h1, h2, ih]

theorem dlookup_dinsert_self [DecidableEq K] (l : List (K × V)) (k : K) (v : V) :
    dlookup (dinsert l k v) k = some v := by
  simp [dlookup_dinsert]

theorem dlookup_dinsert_ne [DecidableEq K] (l : List (K × V)) {k k' : K} (v : V)
    (h : k' ≠ k) : dlookup (dinsert l k v) k' = dlookup l k' := by
  simp [dlookup_dinsert, h]

theorem VariableRegistry.getInstance_snd (r : VariableRegistry V) (m i : String) :
    (r.getInstance m i).2 =
      ((dlookup r.registry m).bind fun d => dlookup d i).getD [] := by
  unfold VariableRegistry.getInstance
  cases hm : dlookup r.registry m with
  | none =>
      simp only [hm, Option.isNone_none, if_true, dlookup_dinsert_self, Option.getD_some,
        Option.bind_none, Option.getD_none]
      cases hi : dlookup ([] : List (String × List (String × V))) i with
      | none => simp [dlookup_dinsert_self]
      | some d => simp [dlookup] at hi
  | some d =>
      simp only [hm, Option.isNone_some, Bool.false_eq_true, if_false, Option.getD_some,
        Option.bind_some]
      cases hi : dlookup d i with
      | none => simp [hi, dlookup_dinsert_self]
      | some x => simp [hi]

theorem VariableRegistry.getInstance_find3 (r : VariableRegistry V) (m i m' i' l' : String) :
    ((r.getInstance m i).1).find3 m' i' l' = r.find3 m' i' l' := by
  unfold VariableRegistry.getInstance VariableRegistry.find3
  by_cases hmm : m' = m
  · subst hmm
    cases hm : dlookup r.registry m' with
    | none =>
        simp only [hm, Option.isNone_none, if_true, dlookup_dinsert_self, Option.getD_some,
          Option.bind_none]
        by_cases hii : i' = i
        · subst hii
          simp [dlookup, dlookup_dinsert_self]
        · simp [dlookup, dlookup_dinsert_self, dlookup_dinsert_ne _ _ hii]
    | some d =>
        simp only [hm, Option.isNone_some, Bool.false_eq_true, if_false, Option.getD_some,
          Option.bind_some, dlookup_dinsert_self]
        cases hi : dlookup d i with
        | none =>
            by_cases hii : i' = i
            · subst hii
              simp [hi, dlookup_dinsert_self, dlookup]
            · simp [dlookup_dinsert_ne _ _ hii]
        | some x => simp
  · -- the first-level entry at `m'` is untouched
    cases hm : dlookup r.registry m with
    | none =>
        simp only [hm, Option.isNone_none, if_true, dlookup_dinsert_self, Option.getD_some]
        rw [dlookup_dinsert_ne _ _ hmm, dlookup_dinsert_ne _ _ hmm]
    | some d =>
        simp only [hm, Option.isNone_some, Bool.false_eq_true, if_false, Option.getD_some]
        rw [dlookup_dinsert_ne _ _ hmm]

/-- The value `get` returns is exactly the pure three-level lookup. -/
theorem VariableRegistry.get_snd (r : VariableRegistry V) (m i l : String) :
    (r.get m i l).2 = r.find3 m i l := by
  simp only [VariableRegistry.get, VariableRegistry.find3]
  rw [VariableRegistry.getInstance_snd]
  cases hm : dlookup r.registry m with
  | none => simp [dlookup]
  | some d =>
      cases hi : dlookup d i with
      | none => simp [hi, dlookup]
      | some x => simp [hi]

/-- `get` changes no stored value: every three-level lookup on the registry
it returns agrees with the original registry. -/
theorem VariableRegistry.get_find3_preserved (r : VariableRegistry V) (m i l m' i' l' : String) :
    ((r.get m i l).1).find3 m' i' l' = r.find3 m' i' l' := by
  simp only [VariableRegistry.get]
  exact VariableRegistry.getInstance_find3 r m i m' i' l'

/-- After `set m i l v`, the pure three-level lookup at `(m, i, l)` yields `v`. -/
theorem VariableRegistry.set_find3_self (r : VariableRegistry V) (m i l : String) (v : V) :
    (r.set m i l v).find3 m i l = some v := by
  unfold VariableRegistry.set VariableRegistry.find3
  simp [dlookup_dinsert_self]

/-- C3 (counterexample): `VariableRegistry.get` does NOT leave the registry
completely unchanged.  Reading the absent key `("a", "b", "c")` on an empty
registry creates empty dictionaries at the module and instance levels, so
the registry returned by `get` differs from the original. -/
theorem C3_get_mutates_registry_counterexample :
    ((VariableRegistry.empty : VariableRegistry Nat).get "a" "b" "c").1 ≠
      (VariableRegistry.empty : VariableRegistry Nat) := by
  decide

/-- C3 (amended): `get(module, instance, label)` returns the stored value if
present and `None` otherwise, and it never creates a label-level entry nor
changes any stored value — every three-level lookup on the registry after
the read agrees with the registry before it.  (Unlike the original claim,
reading an absent key does create empty intermediate dictionaries at the
module and instance levels, as witnessed by the counterexample.) -/
theorem C3_get_pure_observation_amended (V : Type) (r : VariableRegistry V) (m i l : String) :
    (r.get m i l).2 = r.find3 m i l ∧
      ∀ m' i' l', ((r.get m i l).1).find3 m' i' l' = r.find3 m' i' l' :=
  ⟨VariableRegistry.get_snd r m i l,
   fun m' i' l' => VariableRegistry.get_find3_preserved r m i l m' i' l'⟩

/-- C6: after `set(m, i, l, v)` a `get(m, i, l)` returns `v` (with `set`
creating the missing intermediate levels as needed), and after `clear()`
every `get` returns `None` regardless of what was stored before. -/
theorem C6_set_get_clear (V : Type) (r : VariableRegistry V) (m i l : String) (v : V)
    (m' i' l' : String) :
    ((r.set m i l v).get m i l).2 = some v ∧ ((r.clear).get m' i' l').2 = none := by
  constructor
  · rw [VariableRegistry.get_snd]
    exact VariableRegistry.set_find3_self r m i l v
  · rw [VariableRegistry.get_snd]
    simp [VariableRegistry.clear, VariableRegistry.find3, dlookup]

/-- C8: an `IntegerVariable` declared with `default_value`, `min_value` and
`max_value` all unset gets default 0 and range [0, 10]; a `FloatVariable`
with them all unset gets default 0 and range [-1.0, 1.0]; explicitly
supplied values are kept unchanged. -/
theorem C8_numeric_defaulting (lbl : String) (a b c : Int) (x y z : Rat) :
    IntegerVariable.init lbl none none none =
        { label := lbl, default_value := 0, min_value := 0, max_value := 10 } ∧
      FloatVariable.init lbl none none none =
        { label := lbl, default_value := 0, min_value := -1, max_value := 1 } ∧
      IntegerVariable.init lbl (some a) (some b) (some c) =
        { label := lbl, default_value := a, min_value := b, max_value := c } ∧
      FloatVariable.init lbl (some x) (some y) (some z) =
        { label := lbl, default_value := x, min_value := y, max_value := z } :=
  ⟨rfl, rfl, rfl, rfl⟩

/-- C4 (counterexample): with the stored value "abc" — which cannot be cast
to Int — loading the integer variable raises an uncaught `ValueError`
instead of reporting the mismatch and falling back to the declared
default, refuting the claim at this input. -/
theorem C4_uncastable_raises_counterexample :
    exIntVar.load_from_registry castInt exRegC4 (some ("m", "i")) =
      Except.error PyErr.valueError := by
  rfl

/-- C4 (amended): when the identifier is present and the registry holds a
stored value that cannot be cast to the variable's declared numeric type
(Int via integer parse, Float via float parse), `_load_from_registry`
raises an uncaught `ValueError` from the cast — the value does not fall
back to the declared default (fallback happens only when no value is
stored, or when no identifier is present). -/
theorem C4_uncastable_raises_amended (v : NumericalVariable Int) (w : NumericalVariable Rat)
    (reg reg' : VariableRegistry PyVal) (m i m' i' : String) (pv qv : PyVal)
    (h1 : (reg.get m i v.label).2 = some pv) (h2 : castInt pv = none)
    (h3 : (reg'.get m' i' w.label).2 = some qv) (h4 : castFloat qv = none) :
    v.load_from_registry castInt reg (some (m, i)) = Except.error PyErr.valueError ∧
      w.load_from_registry castFloat reg' (some (m', i')) = Except.error PyErr.valueError := by
  constructor
  · simp [NumericalVariable.load_from_registry, h1, h2]
  · simp [NumericalVariable.load_from_registry, h3, h4]

/-- Witness for C4 (amended) at the concrete registry `exRegC4`. -/
theorem C4_uncastable_raises_witness :
    exIntVar.load_from_registry castInt exRegC4 (some ("m", "i")) =
        Except.error PyErr.valueError ∧
      exFloatVar.load_from_registry castFloat exRegC4 (some ("m", "i")) =
        Except.error PyErr.valueError :=
  C4_uncastable_raises_amended exIntVar exFloatVar exRegC4 exRegC4 "m" "i" "m" "i"
    (PyVal.str "abc") (PyVal.str "abc") rfl rfl rfl rfl

/-- C10: a `StringVariable` whose binding identifier is present but whose
label has no stored value loads the literal string "None" (the String cast
applied to Python `None`), not its declared default — unlike a
`NumericalVariable`, which in the same situation falls back to its
(clamped) declared default. -/
theorem C10_string_absent_loads_none (v : StringVariable) (nv : NumericalVariable Int)
    (cast : PyVal → Option Int) (reg reg' : VariableRegistry PyVal) (m i m' i' : String)
    (h : (reg.get m i v.label).2 = none)
    (h' : (reg'.get m' i' nv.label).2 = none) :
    (v.load_from_registry reg (some (m, i))).2 = some "None" ∧
      nv.load_from_registry cast reg' (some (m', i')) =
        Except.ok ((reg'.get m' i' nv.label).1,
          clamp_value nv.default_value nv.min_value nv.max_value) := by
  constructor
  · simp [StringVariable.load_from_registry, h, strCastOfGet]
  · simp [NumericalVariable.load_from_registry, h']

/-- Witness for C10 on an empty registry. -/
theorem C10_string_absent_loads_none_witness :
    (({ label := "x", default_value := some "dflt" } : StringVariable).load_from_registry
        VariableRegistry.empty (some ("m", "i"))).2 = some "None" ∧
      exIntVar.load_from_registry castInt VariableRegistry.empty (some ("m", "i")) =
        Except.ok ((VariableRegistry.empty.get "m" "i" exIntVar.label).1,
          clamp_value exIntVar.default_value exIntVar.min_value exIntVar.max_value) :=
  C10_string_absent_loads_none { label := "x", default_value := some "dflt" } exIntVar
    castInt VariableRegistry.empty VariableRegistry.empty "m" "i" "m" "i" rfl rfl

theorem dlookup_append_of_none [DecidableEq K] {l1 : List (K × V)} (l2 : List (K × V))
    (k : K) (h : dlookup l1 k = none) : dlookup (l1 ++ l2) k = dlookup l2 k := by
  induction l1 with
  | nil => rfl
  | cons hd tl ih =>
      obtain ⟨k0, v0⟩ := hd
      simp only [dlookup, List.cons_append] at h ⊢
      by_cases hk : k = k0
      · simp [hk] at h
      · simp only [hk, if_false] at h ⊢
        exact ih h

theorem ModeConfig.getDict_setDict_self (cfg : ModeConfig) (t : InputType)
    (d : List (InputId × InputItem)) : (cfg.setDict t d).getDict t = d := by
  cases t <;> rfl

theorem ModeConfig.getDict_setDict_ne (cfg : ModeConfig) {t t' : InputType}
    (d : List (InputId × InputItem)) (h : t' ≠ t) :
    (cfg.setDict t d).getDict t' = cfg.getDict t' := by
  cases t <;> cases t' <;> simp_all [ModeConfig.setDict, ModeConfig.getDict]

theorem actionChildStep_foldl (cs : List XmlElem) (acc : List ActionEntry × List String) :
    cs.foldl actionChildStep acc =
      (acc.1 ++ (cs.filter (fun c => action_tags.contains c.tag)).map ActionEntry.capture,
       acc.2 ++ (cs.filter (fun c => !action_tags.contains c.tag)).map
         (fun c => unknown_node_msg c.tag)) := by
  induction cs generalizing acc with
  | nil => simp
  | cons c cs ih =>
      by_cases h : action_tags.contains c.tag
      · have h2 : c.tag ∈ action_tags := by simpa using h
        simp [actionChildStep, h, h2, ih, List.filter_cons]
      · have h2 : c.tag ∉ action_tags := by simpa using h
        simp [actionChildStep, h, h2, ih, List.filter_cons]

/-- Inversion of a successful `InputItem.from_xml`: how each field of the
parsed item and the warning list arise from the element. -/
theorem InputItem.from_xml_ok (node : XmlElem) (item : InputItem) (ws : List String)
    (h : InputItem.from_xml node = .ok (item, ws)) :
    (∃ t, tag_to_input_type node.tag = .ok t ∧ item.input_type = t) ∧
      (∃ ae, parse_bool (some ((dlookup node.attrs "always-execute").getD "False")) =
          .ok ae ∧ item.always_execute = ae) ∧
      item.actions = (node.children.filter
          (fun c => action_tags.contains c.tag)).map ActionEntry.capture ∧
      ws = (node.children.filter (fun c => !action_tags.contains c.tag)).map
          (fun c => unknown_node_msg c.tag) := by
  unfold InputItem.from_xml at h
  split at h
  · exact Except.noConfusion h
  next t htag =>
    split at h
    · exact Except.noConfusion h
    next rawId hid =>
      split at h
      · exact Except.noConfusion h
      next ae hae =>
        split at h
        · exact Except.noConfusion h
        next i hi =>
          rw [actionChildStep_foldl] at h
          simp only [Except.ok.injEq, Prod.mk.injEq] at h
          obtain ⟨hitem, hws⟩ := h
          subst hitem
          exact ⟨⟨t, htag, rfl⟩, ⟨ae, hae, rfl⟩, by simp, hws.symm⟩

/-- Inversion of a successful `InputItem.to_xml`: the always-execute
attribute of the produced element is present (with value "True") exactly
when the flag is set. -/
theorem InputItem.to_xml_attrs (it : InputItem) (xe : XmlElem) (h : it.to_xml = .ok xe) :
    dlookup xe.attrs "always-execute" =
      if it.always_execute then some "True" else none := by
  unfold InputItem.to_xml at h
  split at h
  · exact Except.noConfusion h
  next baseAttrs hbase =>
    have hb : dlookup baseAttrs "always-execute" = none := by
      split at hbase
      · split at hbase
        next code ext heq =>
          injection hbase with hb2
          subst hb2
          simp only [dlookup]
          rw [if_neg (by decide), if_neg (by decide)]
        next heq => exact Except.noConfusion hbase
      · injection hbase with hb2
        subst hb2
        simp only [dlookup]
        rw [if_neg (by decide)]
    injection h with h
    subst h
    simp only [XmlElem.attrs]
    cases hflag : it.always_execute
    · simp only [Bool.false_eq_true, if_false, List.append_nil]
      exact hb
    · simp only [if_true]
      rw [dlookup_append_of_none _ _ hb]
      simp [dlookup]

/-- C7: `Mode.get_data` returns the `InputItem` stored at the slot,
creating an empty one (with that input type and id) only on first access;
calling it twice in a row returns the identical item both times — the
second call creates nothing and modifies no other slot of the mode. -/
theorem C7_get_data_lazy_idempotent (m : Mode) (t : InputType) (i : InputId) :
    (∀ item, dlookup (m.config.getDict t) i = some item → m.get_data t i = (m, item)) ∧
      (dlookup (m.config.getDict t) i = none →
        (m.get_data t i).2 =
            { input_type := t, input_id := i, always_execute := false, actions := [] } ∧
          dlookup (((m.get_data t i).1).config.getDict t) i = some (m.get_data t i).2 ∧
          ∀ t' i', (t', i') ≠ (t, i) →
            dlookup (((m.get_data t i).1).config.getDict t') i' =
              dlookup (m.config.getDict t') i') ∧
      ((m.get_data t i).1.get_data t i = m.get_data t i) := by
  refine ⟨fun item h => by simp [Mode.get_data, h], fun h => ?_, ?_⟩
  · refine ⟨by simp [Mode.get_data, h], ?_, ?_⟩
    · simp [Mode.get_data, h, ModeConfig.getDict_setDict_self, dlookup_dinsert_self]
    · intro t' i' hne
      by_cases ht : t' = t
      · subst ht
        have hi : i' ≠ i := fun hii => hne (by rw [hii])
        simp [Mode.get_data, h, ModeConfig.getDict_setDict_self,
          dlookup_dinsert_ne _ _ hi]
      · simp [Mode.get_data, h, ModeConfig.getDict_setDict_ne _ _ ht]
  · cases hl : dlookup (m.config.getDict t) i with
    | some item => simp [Mode.get_data, hl]
    | none =>
        simp [Mode.get_data, hl, ModeConfig.getDict_setDict_self, dlookup_dinsert_self]

/-- Witness for C7 on the concrete empty mode `exModeC7`: the first access
creates the empty button item, and the second access returns the same mode
and item unchanged. -/
theorem C7_get_data_witness :
    (exModeC7.get_data InputType.JoystickButton (InputId.joy 1)).2 =
        { input_type := InputType.JoystickButton, input_id := InputId.joy 1,
          always_execute := false, actions := [] } ∧
      ((exModeC7.get_data InputType.JoystickButton (InputId.joy 1)).1.get_data
          InputType.JoystickButton (InputId.joy 1) =
        exModeC7.get_data InputType.JoystickButton (InputId.joy 1)) := by
  have h := C7_get_data_lazy_idempotent exModeC7 InputType.JoystickButton (InputId.joy 1)
  exact ⟨(h.2.1 rfl).1, h.2.2⟩

/-- C9: `InputItem.to_xml` omits the always-execute attribute entirely
when the flag is False and emits it with value "True" when the flag is
True; `InputItem.from_xml` treats an absent always-execute attribute as
False — the False flag round-trips through attribute absence. -/
theorem C9_always_execute_attribute (it : InputItem) (xe : XmlElem)
    (node : XmlElem) (item : InputItem) (ws : List String)
    (h1 : it.to_xml = .ok xe)
    (h2 : dlookup node.attrs "always-execute" = none)
    (h3 : InputItem.from_xml node = .ok (item, ws)) :
    (it.always_execute = false → dlookup xe.attrs "always-execute" = none) ∧
      (it.always_execute = true → dlookup xe.attrs "always-execute" = some "True") ∧
      item.always_execute = false := by
  have ha := InputItem.to_xml_attrs it xe h1
  refine ⟨fun hf => by rw [ha, hf]; rfl, fun ht => by rw [ha, ht]; rfl, ?_⟩
  obtain ⟨-, ⟨ae, hae, hitem⟩, -, -⟩ := InputItem.from_xml_ok node item ws h3
  rw [h2] at hae
  have hfb : parse_bool (some ((none : Option String).getD "False")) = Except.ok false := rfl
  rw [hfb] at hae
  injection hae with hb
  rw [hitem, ← hb]

/-- Witness for C9 at the concrete item `exItemC9` and element `exNodeC9`. -/
theorem C9_always_execute_witness :
    (exItemC9.always_execute = false → dlookup exXmlC9.attrs "always-execute" = none) ∧
      (exItemC9.always_execute = true →
        dlookup exXmlC9.attrs "always-execute" = some "True") ∧
      exParsedC9.always_execute = false :=
  C9_always_execute_attribute exItemC9 exXmlC9 exNodeC9 exParsedC9 [] rfl rfl rfl

/-- When every child of a mode element parses, the item loop succeeds and
its warning output is the concatenation of the children's warnings in
document order. -/
theorem modeItemsLoop_ok (cs : List XmlElem) (cfg : ModeConfig) (ws : List String)
    (hok : ∀ b ∈ cs, ∃ r, InputItem.from_xml b = .ok r) :
    ∃ cfg', modeItemsLoop cs cfg ws = .ok (cfg', ws ++ cs.flatMap childWarns) := by
  induction cs generalizing cfg ws with
  | nil => exact ⟨cfg, by simp [modeItemsLoop]⟩
  | cons c cs ih =>
      obtain ⟨r, hr⟩ := hok c (List.mem_cons_self c cs)
      obtain ⟨cfg', hloop⟩ := ih
        (cfg.setDict r.1.input_type (dinsert (cfg.getDict r.1.input_type) r.1.input_id r.1))
        (ws ++ r.2) (fun b hb => hok b (List.mem_cons_of_mem _ hb))
      refine ⟨cfg', ?_⟩
      simp only [modeItemsLoop, hr]
      rw [hloop]
      have hcw : childWarns c = r.2 := by simp [childWarns, hr]
      simp [hcw, List.append_assoc]

/-- C5: a mode element whose input children all parse — possibly holding
action children with unknown tags — parses successfully; in each input
element every unknown action tag is omitted from the parsed item's actions
while the known actions are kept in document order; and the unknown tag's
warning is recorded in the mode-level warning output. -/
theorem C5_unknown_action_skipped (mnode : XmlElem)
    (hok : ∀ b ∈ mnode.children, ∃ r, InputItem.from_xml b = .ok r) :
    (∃ m ws, Mode.from_xml mnode = .ok (m, ws)) ∧
      (∀ b ∈ mnode.children, ∀ item bws, InputItem.from_xml b = .ok (item, bws) →
        item.actions = (b.children.filter
            (fun c => action_tags.contains c.tag)).map ActionEntry.capture ∧
          bws = (b.children.filter (fun c => !action_tags.contains c.tag)).map
            (fun c => unknown_node_msg c.tag)) ∧
      (∀ ws m, Mode.from_xml mnode = .ok (m, ws) →
        ∀ b ∈ mnode.children, ∀ c ∈ b.children, action_tags.contains c.tag = false →
          unknown_node_msg c.tag ∈ ws) := by
  obtain ⟨cfg', hloop⟩ := modeItemsLoop_ok mnode.children ModeConfig.empty [] hok
  refine ⟨⟨{ name := dlookup mnode.attrs "name", config := cfg' },
           [] ++ mnode.children.flatMap childWarns,
           by simp only [Mode.from_xml, hloop]⟩, ?_, ?_⟩
  · intro b hb item bws hparse
    obtain ⟨-, -, hacts, hws⟩ := InputItem.from_xml_ok b item bws hparse
    exact ⟨hacts, hws⟩
  · intro ws m hm b hb c hc hunk
    have hws : ws = [] ++ mnode.children.flatMap childWarns := by
      unfold Mode.from_xml at hm
      rw [hloop] at hm
      simp only [Except.ok.injEq, Prod.mk.injEq] at hm
      exact hm.2.symm
    obtain ⟨r, hr⟩ := hok b hb
    obtain ⟨item, bws⟩ := r
    obtain ⟨-, -, -, hbws⟩ := InputItem.from_xml_ok b item bws hr
    have hcw : childWarns b = bws := by simp [childWarns, hr]
    have hmem : unknown_node_msg c.tag ∈ bws := by
      rw [hbws]
      exact List.mem_map.mpr ⟨c, List.mem_filter.mpr ⟨hc, by simpa using hunk⟩, rfl⟩
    rw [hws]
    simp only [List.nil_append]
    exact List.mem_flatMap.mpr ⟨b, hb, hcw ▸ hmem⟩

/-- Witness for C5 at the concrete mode element `exModeElem`, whose button
child holds one unknown-tag action and one known `macro` action. -/
theorem C5_unknown_action_witness :
    (∃ m ws, Mode.from_xml exModeElem = .ok (m, ws)) ∧
      (∀ b ∈ exModeElem.children, ∀ item bws, InputItem.from_xml b = .ok (item, bws) →
        item.actions = (b.children.filter
            (fun c => action_tags.contains c.tag)).map ActionEntry.capture ∧
          bws = (b.children.filter (fun c => !action_tags.contains c.tag)).map
            (fun c => unknown_node_msg c.tag)) ∧
      (∀ ws m, Mode.from_xml exModeElem = .ok (m, ws) →
        ∀ b ∈ exModeElem.children, ∀ c ∈ b.children, action_tags.contains c.tag = false →
          unknown_node_msg c.tag ∈ ws) :=
  C5_unknown_action_skipped exModeElem (by
    intro b hb
    have hb2 : b = exButtonElem := by
      simpa [exModeElem, XmlElem.children] using hb
    subst hb2
    exact ⟨_, rfl⟩)

/-- Reconciliation never removes or replaces an existing device entry. -/
theorem reconcile_preserves (devices : List (Int × Device)) (live : List DeviceDescriptor)
    (ml : List String) (k : Int) (d : Device) (h : dlookup devices k = some d) :
    dlookup (Profile.reconcile devices live ml) k = some d := by
  induction live generalizing devices with
  | nil => exact h
  | cons dev rest ih =>
      simp only [Profile.reconcile]
      apply ih
      by_cases hcond : (!dev.is_virtual && (dlookup devices dev.device_id).isNone) = true
      · rw [if_pos hcond]
        have hk : k ≠ dev.device_id := by
          intro hkk
          subst hkk
          rw [h] at hcond
          simp at hcond
        rw [dlookup_dinsert_ne _ _ hk]
        exact h
      · rw [if_neg hcond]
        exact h

/-- Presence of a key survives reconciliation. -/
theorem reconcile_isSome (devices : List (Int × Device)) (live : List DeviceDescriptor)
    (ml : List String) (k : Int) (h : (dlookup devices k).isSome = true) :
    (dlookup (Profile.reconcile devices live ml) k).isSome = true := by
  obtain ⟨d, hd⟩ := Option.isSome_iff_exists.mp h
  rw [reconcile_preserves devices live ml k d hd]
  rfl

/-- After reconciliation, every live non-virtual device has an entry. -/
theorem reconcile_covers (devices : List (Int × Device)) (live : List DeviceDescriptor)
    (ml : List String) (dev : DeviceDescriptor)
    (hmem : dev ∈ live) (hv : dev.is_virtual = false) :
    (dlookup (Profile.reconcile devices live ml) dev.device_id).isSome = true := by
  revert hmem
  induction live generalizing devices with
  | nil => intro hmem; cases hmem
  | cons d0 rest ih =>
      intro hmem
      simp only [Profile.reconcile]
      rcases List.mem_cons.mp hmem with heq | hmem2
      · subst heq
        apply reconcile_isSome
        by_cases hcond : (!dev.is_virtual && (dlookup devices dev.device_id).isNone) = true
        · rw [if_pos hcond, dlookup_dinsert_self]
          rfl
        · rw [if_neg hcond]
          cases hopt : dlookup devices dev.device_id with
          | none => exact absurd (by simp [hv, hopt]) hcond
          | some d => rfl
      · exact ih _ hmem2

/-- Reconciliation is the identity when every live non-virtual device is
already present. -/
theorem reconcile_id_of_covered (devices : List (Int × Device))
    (live : List DeviceDescriptor) (ml : List String)
    (h : ∀ dev ∈ live, dev.is_virtual = false →
        (dlookup devices dev.device_id).isSome = true) :
    Profile.reconcile devices live ml = devices := by
  revert h
  induction live with
  | nil => intro h; rfl
  | cons dev rest ih =>
      intro h
      simp only [Profile.reconcile]
      have hstep : (if (!dev.is_virtual && (dlookup devices dev.device_id).isNone) = true
          then dinsert devices dev.device_id (freshReconDevice dev ml)
          else devices) = devices := by
        cases hv : dev.is_virtual with
        | true => simp [hv]
        | false =>
            have hs := h dev (List.mem_cons_self dev rest) hv
            cases hopt : dlookup devices dev.device_id with
            | none => rw [hopt] at hs; cases hs
            | some d => simp [hopt]
      rw [hstep]
      exact ih (fun d hd hvd => h d (List.mem_cons_of_mem _ hd) hvd)

/-- Reconciliation creates exactly the fresh entry for a live non-virtual
device whose id is absent (assuming no other live device shares its id). -/
theorem reconcile_creates (devices : List (Int × Device)) (live : List DeviceDescriptor)
    (ml : List String) (dev : DeviceDescriptor)
    (hv : dev.is_virtual = false)
    (hstart : dlookup devices dev.device_id = none ∨
        dlookup devices dev.device_id = some (freshReconDevice dev ml))
    (hmem : dev ∈ live)
    (huniq : ∀ d2 ∈ live, d2.device_id = dev.device_id → d2 = dev) :
    dlookup (Profile.reconcile devices live ml) dev.device_id =
      some (freshReconDevice dev ml) := by
  revert hmem huniq
  induction live generalizing devices with
  | nil => intro hmem _; cases hmem
  | cons d0 rest ih =>
      intro hmem huniq
      simp only [Profile.reconcile]
      by_cases hd0 : d0 = dev
      · subst hd0
        have hpost : dlookup
            (if (!d0.is_virtual && (dlookup devices d0.device_id).isNone) = true
             then dinsert devices d0.device_id (freshReconDevice d0 ml)
             else devices) d0.device_id = some (freshReconDevice d0 ml) := by
          rcases hstart with hnone | hsome
          · rw [if_pos (by simp [hv, hnone]), dlookup_dinsert_self]
          · rw [if_neg (by simp [hsome])]
            exact hsome
        exact reconcile_preserves _ rest ml _ _ hpost
      · have hmem2 : dev ∈ rest := by
          rcases List.mem_cons.mp hmem with h0 | h2
          · exact absurd h0.symm hd0
          · exact h2
        have hid : d0.device_id ≠ dev.device_id := by
          intro hdd
          exact hd0 (huniq d0 (List.mem_cons_self d0 rest) hdd)
        have hsame : dlookup
            (if (!d0.is_virtual && (dlookup devices d0.device_id).isNone) = true
             then dinsert devices d0.device_id (freshReconDevice d0 ml)
             else devices) dev.device_id = dlookup devices dev.device_id := by
          by_cases hcond : (!d0.is_virtual && (dlookup devices d0.device_id).isNone) = true
          · rw [if_pos hcond, dlookup_dinsert_ne _ _ (Ne.symm hid)]
          · rw [if_neg hcond]
        have hstart2 := hstart
        rw [← hsame] at hstart2
        exact ih _ hstart2 hmem2
          (fun d2 hd2 hdd => huniq d2 (List.mem_cons_of_mem _ hd2) hdd)

/-- The mode loop on a fresh device never removes or replaces an existing
mode entry. -/
theorem addReconModes_preserves (ml : List String) (d : Device) (k : Option String)
    (v : Mode) (h : dlookup d.modes k = some v) :
    dlookup (addReconModes ml d).modes k = some v := by
  induction ml generalizing d with
  | nil => exact h
  | cons m rest ih =>
      simp only [addReconModes]
      apply ih
      split
      · next hcond =>
          have hk : k ≠ some m := by
            intro hkk
            subst hkk
            rw [h] at hcond
            cases hcond
          simpa [dlookup_dinsert_ne _ _ hk] using h
      · next => exact h

/-- Every name of the mode list ends up mapped to the empty mode of that
name (given it starts absent or already as exactly that empty mode). -/
theorem addReconModes_mode (ml : List String) (d : Device) (m : String)
    (hstart : dlookup d.modes (some m) = none ∨
        dlookup d.modes (some m) = some { name := some m, config := ModeConfig.empty })
    (hmem : m ∈ ml) :
    dlookup (addReconModes ml d).modes (some m) =
      some { name := some m, config := ModeConfig.empty } := by
  revert hmem
  induction ml generalizing d with
  | nil => intro hmem; cases hmem
  | cons m0 rest ih =>
      intro hmem
      simp only [addReconModes]
      by_cases hm0 : m0 = m
      · subst hm0
        have hpost : dlookup
            (if (dlookup d.modes (some m0)).isNone = true
             then { d with modes :=
                     dinsert d.modes (some m0) { name := some m0, config := ModeConfig.empty } }
             else d).modes (some m0) =
            some { name := some m0, config := ModeConfig.empty } := by
          rcases hstart with hnone | hsome
          · rw [if_pos (by simp [hnone])]
            simp [dlookup_dinsert_self]
          · rw [if_neg (by simp [hsome])]
            exact hsome
        exact addReconModes_preserves rest _ _ _ hpost
      · have hmem2 : m ∈ rest := by
          rcases List.mem_cons.mp hmem with h0 | h2
          · exact absurd h0.symm hm0
          · exact h2
        have hk : (some m : Option String) ≠ some m0 := by
          intro hkk
          exact hm0 (Option.some.injEq .. ▸ hkk).symm
        have hsame : dlookup
            (if (dlookup d.modes (some m0)).isNone = true
             then { d with modes :=
                     dinsert d.modes (some m0) { name := some m0, config := ModeConfig.empty } }
             else d).modes (some m) = dlookup d.modes (some m) := by
          split
          · next => simp [dlookup_dinsert_ne _ _ hk]
          · next => rfl
        have hstart2 := hstart
        rw [← hsame] at hstart2
        exact ih _ hstart2 hmem2

/-- The fresh device created by reconciliation maps every supplied mode
name to an empty mode of that name. -/
theorem freshReconDevice_mode (dev : DeviceDescriptor) (ml : List String) (m : String)
    (hmem : m ∈ ml) :
    dlookup (freshReconDevice dev ml).modes (some m) =
      some { name := some m, config := ModeConfig.empty } := by
  apply addReconModes_mode ml _ m _ hmem
  by_cases hg : m = "global"
  · subst hg
    right
    rfl
  · left
    simp [reconBaseDevice, Device.new, dlookup, hg]

/-- C2: the reconciliation pass run inside `Profile.from_xml` is
additive-only and idempotent: it never removes or changes any device entry
already present (and hence none of its modes, even for a physically absent
device); for every live non-virtual device not already present it creates
the fresh entry, which holds one empty mode per supplied mode name
(skipping names already present, such as the constructor's "global");
and running it twice against the same live-device list equals running it
once. -/
theorem C2_reconciliation_additive_idempotent (devices : List (Int × Device))
    (live : List DeviceDescriptor) (ml : List String)
    (huniq : ∀ d1 ∈ live, ∀ d2 ∈ live, d1.device_id = d2.device_id → d1 = d2) :
    (∀ k d, dlookup devices k = some d →
        dlookup (Profile.reconcile devices live ml) k = some d) ∧
      (∀ dev ∈ live, dev.is_virtual = false → dlookup devices dev.device_id = none →
        dlookup (Profile.reconcile devices live ml) dev.device_id =
          some (freshReconDevice dev ml)) ∧
      (∀ dev, ∀ m ∈ ml, dlookup (freshReconDevice dev ml).modes (some m) =
        some { name := some m, config := ModeConfig.empty }) ∧
      Profile.reconcile (Profile.reconcile devices live ml) live ml =
        Profile.reconcile devices live ml := by
  refine ⟨fun k d h => reconcile_preserves devices live ml k d h,
    fun dev hmem hv habs =>
      reconcile_creates devices live ml dev hv (Or.inl habs) hmem
        (fun d2 hd2 hdd => huniq d2 hd2 dev hmem hdd),
    fun dev m hm => freshReconDevice_mode dev ml m hm,
    reconcile_id_of_covered _ live ml
      (fun dev hmem hv => reconcile_covers devices live ml dev hmem hv)⟩

/-- Witness for C2 at the concrete inputs: the existing device (with its
manually added "extra" mode) is preserved verbatim, the absent live device
gets the fresh entry with its "Alt" mode, and a second reconciliation run
changes nothing. -/
theorem C2_reconciliation_witness :
    dlookup (Profile.reconcile exDevicesC2 exLiveC2 exModeListC2) 5 = some exDeviceC2 ∧
      dlookup (Profile.reconcile exDevicesC2 exLiveC2 exModeListC2) 7 =
        some (freshReconDevice exDescrC2 exModeListC2) ∧
      dlookup (freshReconDevice exDescrC2 exModeListC2).modes (some "Alt") =
        some { name := some "Alt", config := ModeConfig.empty } ∧
      Profile.reconcile (Profile.reconcile exDevicesC2 exLiveC2 exModeListC2)
          exLiveC2 exModeListC2 =
        Profile.reconcile exDevicesC2 exLiveC2 exModeListC2 := by
  have h := C2_reconciliation_additive_idempotent exDevicesC2 exLiveC2 exModeListC2
    (by intro d1 h1 d2 h2 hdd
        simp only [exLiveC2, List.mem_singleton] at h1 h2
        rw [h1, h2])
  refine ⟨h.1 5 exDeviceC2 rfl, h.2.1 exDescrC2 (List.mem_singleton.mpr rfl) rfl rfl,
    h.2.2.1 exDescrC2 "Alt" (by simp [exModeListC2]), h.2.2.2⟩

/-- C1 (code bug): saving the one-device profile `exProfileC1` with
`to_xml` and re-loading the result with `from_xml` does not reproduce the
profile: the load raises `AttributeError`, because `Profile.from_xml` keys
every parsed device at `device.index` and the `Device` class defines no
attribute `index`.  Loading therefore fails for every saved profile that
contains at least one device, so the claimed round-trip equality cannot
hold. -/
theorem C1_roundtrip_attribute_error :
    (Profile.to_xml exProfileC1).bind
        (fun root => Profile.new.from_xml root [] []) =
      Except.error PyErr.attributeError := by
  rfl
